import Mathlib

/-!
Verification of the PrOMMiS extension blocks:
* `Translator_SX_precipitator` (translator_SX_precipitator.py): a translator
  block whose `build` method declares expressions and equality constraints
  mapping solvent-extraction stream variables to precipitator log-molality
  variables, plus an `initialize_build` sequencer.
* `CustomCostingData.cost_custom_vessel` (custom_costing_example.py): a custom
  vessel costing method building cost variables and defining constraints.

The embedding keeps the source's numeric constants exactly (as rationals) and
models the solver-facing constraint right-hand sides as a small expression
type, so that the distinction between a fixed numeric target (the Python
source wraps the molality targets in `log10(value(...))`) and a live symbolic
relation (the mass-flow constraint) is visible in the model.
-/

namespace Prommis

/-! ## Translator block: build-time state and constants

Upstream quantities are taken in the units the source converts them to:
`flow_vol` in L/s (the source applies `pyunits.convert(..., L/s)`),
`flow_mass` in kg/s, indexed by species symbol ("Al", "Ca", "Fe").
-/

/-- Numeric values of the upstream (solvent-extraction) state block's
variables, as seen at constraint-declaration (build) time. -/
structure SXState where
  flow_vol : ℚ
  flow_mass : String → ℚ

/-- Molecular weight of aluminum, kg/mol (source constant `mw_al`). -/
def mw_al : ℚ := 0.02698154

/-- Molecular weight of calcium, kg/mol (source constant `mw_ca`). -/
def mw_ca : ℚ := 0.03996259

/-- Molecular weight of iron, kg/mol (source constant `mw_fe`). -/
def mw_fe : ℚ := 0.05593494

/-- Fixed solvent density used by the translator, kg/L. -/
def solvent_density : ℚ := 1.840

/-- Fixed pH assumed by the translator (source: `pH = 2.5`). -/
def pH : ℚ := 2.5

/-- Water dissociation equilibrium constant at 25 C (source: `Kw = 1e-14`). -/
def Kw : ℚ := 1e-14

/-- Numeric value of the `solvent_mass_flow` Expression at a build-time
upstream state: volumetric flow (L/s) times the solvent density (kg/L). -/
def solvent_mass_flow (s : SXState) : ℚ := s.flow_vol * solvent_density

/-- Numeric value of the `aluminum_molar_flow` Expression (mol/s). -/
def aluminum_molar_flow (s : SXState) : ℚ := s.flow_mass "Al" / mw_al

/-- Numeric value of the `calcium_molar_flow` Expression (mol/s). -/
def calcium_molar_flow (s : SXState) : ℚ := s.flow_mass "Ca" / mw_ca

/-- Numeric value of the `iron_molar_flow` Expression (mol/s). -/
def iron_molar_flow (s : SXState) : ℚ := s.flow_mass "Fe" / mw_fe

/-! ## Solver-facing constraint expressions -/

/-- Reference to an upstream state-block variable (at the constraint's time
index). -/
inductive UpVar
  | flow_vol : UpVar
  | flow_mass (species : String) : UpVar
deriving DecidableEq

/-- Right-hand-side expression of a translator constraint, as the solver sees
it.  `log10const c e` denotes the CONSTANT real number log10(c * 10^e): the
Python source wraps the molality targets in `log10(value(...))`, so the
solver receives a fixed number, never a function of the upstream variables. -/
inductive CExpr
  | lit (q : ℚ) : CExpr
  | upvar (v : UpVar) : CExpr
  | mul (a b : CExpr) : CExpr
  | log10const (c e : ℚ) : CExpr
deriving DecidableEq

/-- Real-valued semantics of a constraint expression under a solver-time
assignment `σ` of the upstream variables. -/
noncomputable def CExpr.eval (σ : UpVar → ℝ) : CExpr → ℝ
  | .lit q => (q : ℝ)
  | .upvar v => σ v
  | .mul a b => a.eval σ * b.eval σ
  | .log10const c e => Real.logb 10 ((c : ℝ) * (10 : ℝ) ^ ((e : ℚ) : ℝ))

/-- Downstream (precipitator) state-block variable targeted by a
constraint. -/
inductive DownVar
  | flow_mass : DownVar
  | log10_molality_comp (ion : String) : DownVar
deriving DecidableEq

/-- One translator equality constraint: downstream variable = expression. -/
structure TCon where
  lhs : DownVar
  rhs : CExpr
deriving DecidableEq

/-- The symbolic `solvent_mass_flow` Expression: upstream volumetric flow
(L/s) times the density literal 1.840 kg/L.  It refers to the upstream
variable itself, not to a snapshot of its value. -/
def solvent_mass_flow_expr : CExpr :=
  .mul (.upvar .flow_vol) (.lit solvent_density)

/-- Constraint `eq_flow_mass_rule(t)`: downstream total `flow_mass` equals
the (symbolic) solvent mass flow expression. -/
def eq_flow_mass_rule (_t : ℕ) : TCon :=
  ⟨.flow_mass, solvent_mass_flow_expr⟩

/-- Constraint `eq_aluminum_molality(t)`: the source evaluates
`log10(value(aluminum_molar_flow / solvent_mass_flow))` at declaration time,
producing a fixed numeric target from the build-time upstream state. -/
def eq_aluminum_molality (props_in : ℕ → SXState) (t : ℕ) : TCon :=
  ⟨.log10_molality_comp "Al^3+",
   .log10const (aluminum_molar_flow (props_in t) / solvent_mass_flow (props_in t)) 0⟩

/-- Constraint `eq_calcium_molality(t)` (same snapshot pattern). -/
def eq_calcium_molality (props_in : ℕ → SXState) (t : ℕ) : TCon :=
  ⟨.log10_molality_comp "Ca^2+",
   .log10const (calcium_molar_flow (props_in t) / solvent_mass_flow (props_in t)) 0⟩

/-- Constraint `eq_iron_molality(t)` (same snapshot pattern). -/
def eq_iron_molality (props_in : ℕ → SXState) (t : ℕ) : TCon :=
  ⟨.log10_molality_comp "Fe^3+",
   .log10const (iron_molar_flow (props_in t) / solvent_mass_flow (props_in t)) 0⟩

/-- Constraint `eq_hydrogen_molality(t)`: target `log10(value(10**(-pH)))`,
i.e. the constant log10(1 * 10^(-pH)). -/
def eq_hydrogen_molality (_t : ℕ) : TCon :=
  ⟨.log10_molality_comp "H^+", .log10const 1 (-pH)⟩

/-- Constraint `eq_hydroxide_molality(t)`: target
`log10(value(Kw / 10**(-pH)))`, i.e. the constant log10(Kw * 10^pH). -/
def eq_hydroxide_molality (_t : ℕ) : TCon :=
  ⟨.log10_molality_comp "OH^-", .log10const Kw pH⟩

/-- The example upstream state used in the spec: `flow_vol` = 1 L/s and
`flow_mass["Al"]` = 0.001 kg/s (other species zero). -/
def exampleSX : SXState :=
  ⟨1, fun sp => if sp = "Al" then 0.001 else 0⟩

/-- Example upstream state blocks: the example state at every time index. -/
def exampleProps : ℕ → SXState := fun _ => exampleSX

@[simp] theorem CExpr.eval_lit (σ : UpVar → ℝ) (q : ℚ) :
    CExpr.eval σ (.lit q) = (q : ℝ) := rfl

@[simp] theorem CExpr.eval_upvar (σ : UpVar → ℝ) (v : UpVar) :
    CExpr.eval σ (.upvar v) = σ v := rfl

@[simp] theorem CExpr.eval_mul (σ : UpVar → ℝ) (a b : CExpr) :
    CExpr.eval σ (.mul a b) = a.eval σ * b.eval σ := rfl

@[simp] theorem CExpr.eval_log10const (σ : UpVar → ℝ) (c e : ℚ) :
    CExpr.eval σ (.log10const c e) =
      Real.logb 10 ((c : ℝ) * (10 : ℝ) ^ ((e : ℚ) : ℝ)) := rfl

/-- C1: for each metal species (aluminum, calcium, iron) and every time index,
the constraint built for the downstream `log10_molality_comp` entry is a fixed
numeric target — its right-hand side evaluates to the same real number under
every solver-time assignment of the upstream variables — namely the log10 of
the build-time value of (species molar flow / solvent mass flow); with
upstream build-time values flow_vol = 1 L/s and flow_mass["Al"] = 0.001 kg/s,
the aluminum target equals log10((0.001/0.02698154)/1.840). -/
theorem metal_molality_constraints_are_fixed_numeric_targets :
    (∀ (props_in : ℕ → SXState) (t : ℕ) (σ σ' : UpVar → ℝ),
      (eq_aluminum_molality props_in t).rhs.eval σ =
        (eq_aluminum_molality props_in t).rhs.eval σ' ∧
      (eq_calcium_molality props_in t).rhs.eval σ =
        (eq_calcium_molality props_in t).rhs.eval σ' ∧
      (eq_iron_molality props_in t).rhs.eval σ =
        (eq_iron_molality props_in t).rhs.eval σ') ∧
    (∀ (props_in : ℕ → SXState) (t : ℕ),
      (eq_aluminum_molality props_in t).lhs = .log10_molality_comp "Al^3+" ∧
      (eq_calcium_molality props_in t).lhs = .log10_molality_comp "Ca^2+" ∧
      (eq_iron_molality props_in t).lhs = .log10_molality_comp "Fe^3+" ∧
      (eq_aluminum_molality props_in t).rhs =
        .log10const (aluminum_molar_flow (props_in t) / solvent_mass_flow (props_in t)) 0) ∧
    (∀ (t : ℕ) (σ : UpVar → ℝ),
      (eq_aluminum_molality exampleProps t).rhs.eval σ =
        Real.logb 10 ((0.001 / 0.02698154) / 1.840)) := by
  refine ⟨?_, ?_, ?_⟩
  · intro props_in t σ σ'
    exact ⟨rfl, rfl, rfl⟩
  · intro props_in t
    exact ⟨rfl, rfl, rfl, rfl⟩
  · intro t σ
    simp only [eq_aluminum_molality, CExpr.eval_log10const]
    rw [show (((0 : ℚ) : ℝ)) = (0 : ℝ) by norm_num, Real.rpow_zero, mul_one]
    congr 1
    have hAl : exampleSX.flow_mass "Al" = 0.001 := by
      simp [exampleSX]
    simp only [exampleProps, aluminum_molar_flow, solvent_mass_flow, hAl]
    norm_num [exampleSX, mw_al, solvent_density]

/-- C8: for every time index, the hydrogen and hydroxide molality constraints
fix the downstream `log10_molality_comp` entries for "H^+" and "OH^-" to the
constants -2.5 = log10(10^-2.5) and -11.5 = log10(1e-14 / 10^-2.5)
respectively, independent of any upstream flow input (the targets evaluate to
those constants under every assignment). -/
theorem hydrogen_hydroxide_molality_constant_targets :
    ∀ (t : ℕ) (σ : UpVar → ℝ),
      ((eq_hydrogen_molality t).rhs.eval σ = -2.5 ∧
       (eq_hydroxide_molality t).rhs.eval σ = -11.5) ∧
      ((eq_hydrogen_molality t).lhs = .log10_molality_comp "H^+" ∧
       (eq_hydroxide_molality t).lhs = .log10_molality_comp "OH^-") := by
  intro t σ
  refine ⟨⟨?_, ?_⟩, rfl, rfl⟩
  · simp only [eq_hydrogen_molality, CExpr.eval_log10const]
    rw [show (((-pH : ℚ)) : ℝ) = (-2.5 : ℝ) by norm_num [pH]]
    rw [Rat.cast_one, one_mul]
    exact Real.logb_rpow (by norm_num) (by norm_num)
  · simp only [eq_hydroxide_molality, CExpr.eval_log10const]
    have hKw : ((Kw : ℚ) : ℝ) = (10 : ℝ) ^ ((-14 : ℝ)) := by
      rw [Real.rpow_neg (by norm_num),
        show ((14 : ℝ)) = ((14 : ℕ) : ℝ) by norm_num, Real.rpow_natCast]
      norm_num [Kw]
    rw [hKw, show (((pH : ℚ)) : ℝ) = (2.5 : ℝ) by norm_num [pH],
      ← Real.rpow_add (by norm_num),
      show (-14 + 2.5 : ℝ) = (-11.5 : ℝ) by norm_num]
    exact Real.logb_rpow (by norm_num) (by norm_num)

/-- C9: for every time index, the `solvent_mass_flow` expression is the
upstream volumetric flow (L/s) times the fixed density 1.840 kg/L, and
`eq_flow_mass_rule` equates the downstream total `flow_mass` to exactly this
expression as a live symbolic relation: its value varies with the upstream
variable (unlike the fixed metal molality targets). -/
theorem flow_mass_constraint_is_live_symbolic :
    (∀ t : ℕ,
      (eq_flow_mass_rule t).lhs = DownVar.flow_mass ∧
      (eq_flow_mass_rule t).rhs = solvent_mass_flow_expr) ∧
    (∀ σ : UpVar → ℝ,
      CExpr.eval σ solvent_mass_flow_expr = σ UpVar.flow_vol * 1.840) ∧
    (∃ σ σ' : UpVar → ℝ,
      CExpr.eval σ solvent_mass_flow_expr ≠ CExpr.eval σ' solvent_mass_flow_expr) := by
  refine ⟨fun t => ⟨rfl, rfl⟩, ?_, ?_⟩
  · intro σ
    simp only [solvent_mass_flow_expr, CExpr.eval_mul, CExpr.eval_upvar, CExpr.eval_lit]
    norm_num [solvent_density]
  · refine ⟨fun _ => 0, fun _ => 1, ?_⟩
    simp only [solvent_mass_flow_expr, CExpr.eval_mul, CExpr.eval_upvar, CExpr.eval_lit]
    norm_num [solvent_density]

/-! ## Translator block: `initialize_build` sequencer

The method is a straight-line sequence: initialize the inlet state block with
`hold_state=True` (returning restore flags), initialize the outlet state
block, check degrees of freedom, solve, release the inlet hold with the
stored flags, log completion, and finally check optimal termination.  We
model it as a function from an environment (describing the external
behaviours: the degrees-of-freedom count, whether the solver call itself
raises, and the solver's reported termination) to the trace of external
calls made together with the outcome. -/

/-- External behaviour seen by `initialize_build`: the block's name, the
flags token returned by the inlet hold, the degrees-of-freedom count after
both state blocks are initialized, whether `opt.solve` itself raises, and
whether the returned result reports optimal termination. -/
structure InitEnv where
  blockName : String
  flags : ℕ
  dof : ℤ
  solveRaises : Bool
  solveOptimal : Bool
deriving DecidableEq

/-- Externally visible calls made by `initialize_build`, in order. -/
inductive InitEvent
  | initialize_in (hold_state : Bool) : InitEvent
  | initialize_out : InitEvent
  | solve : InitEvent
  | release_state (flags : ℕ) : InitEvent
  | log_complete : InitEvent
deriving DecidableEq

/-- How `initialize_build` terminates.  `structuralError` models the plain
`Exception` raised on a nonzero degrees-of-freedom count (its message names
the block and the count); `initializationError` models the named
`InitializationError` raised on non-optimal termination;
`solverException` models an exception propagating out of `opt.solve`. -/
inductive InitOutcome
  | ok : InitOutcome
  | structuralError (blockName : String) (dof : ℤ) : InitOutcome
  | initializationError (blockName : String) : InitOutcome
  | solverException : InitOutcome
deriving DecidableEq

/-- The message of the structural (degrees-of-freedom) exception: it names
the block and states the nonzero count. -/
def structuralErrorMessage (blockName : String) (dof : ℤ) : String :=
  blockName ++ " degrees of freedom were not 0 at the beginning " ++
    "of initialization. DoF = " ++ toString dof

/-- `initialize_build`, modelled as the trace of external calls plus the
outcome, following the source's control flow: inlet initialize (hold),
outlet initialize, DoF check (raises, skipping everything else, when
nonzero), solve (an exception there propagates before the release), release
of the inlet hold with the stored flags, completion log, and the optimal
termination check. -/
def initialize_build (env : InitEnv) : List InitEvent × InitOutcome :=
  let pre : List InitEvent := [.initialize_in true, .initialize_out]
  if env.dof ≠ 0 then
    (pre, .structuralError env.blockName env.dof)
  else if env.solveRaises then
    (pre ++ [.solve], .solverException)
  else if env.solveOptimal then
    (pre ++ [.solve, .release_state env.flags, .log_complete], .ok)
  else
    (pre ++ [.solve, .release_state env.flags, .log_complete],
     .initializationError env.blockName)

/-- C5: whenever the solver call returns (degrees of freedom were zero and
the solve did not raise), the inlet hold is released with the stored flags —
regardless of the reported termination status — and when that status is
non-optimal the method then raises the named `InitializationError`; the
release precedes the error, as shown by the full trace. -/
theorem release_state_before_initialization_error (env : InitEnv)
    (hdof : env.dof = 0) (hraise : env.solveRaises = false) :
    (InitEvent.release_state env.flags ∈ (initialize_build env).1) ∧
    ((initialize_build env).1 =
      [.initialize_in true, .initialize_out, .solve,
       .release_state env.flags, .log_complete]) ∧
    (env.solveOptimal = false →
      (initialize_build env).2 = .initializationError env.blockName) := by
  simp only [initialize_build, hdof, hraise]
  cases h : env.solveOptimal <;> simp

/-- Witness for C5 at a concrete environment with non-optimal
termination. -/
theorem release_state_before_initialization_error_witness :
    (InitEvent.release_state 7 ∈
      (initialize_build ⟨"fs.translator", 7, 0, false, false⟩).1) ∧
    ((initialize_build ⟨"fs.translator", 7, 0, false, false⟩).1 =
      [.initialize_in true, .initialize_out, .solve,
       .release_state 7, .log_complete]) ∧
    ((initialize_build ⟨"fs.translator", 7, 0, false, false⟩).2 =
      .initializationError "fs.translator") :=
  have h := release_state_before_initialization_error
    ⟨"fs.translator", 7, 0, false, false⟩ rfl rfl
  ⟨h.1, h.2.1, h.2.2 rfl⟩

/-- C6: if the degrees of freedom are nonzero after both state blocks are
initialized, `initialize_build` raises the structural error — carrying the
block name and the nonzero count, and rendered into a message naming both —
before the solver is ever invoked, and this error is distinct from the
convergence (`InitializationError`) outcome. -/
theorem nonzero_dof_structural_error_before_solve (env : InitEnv)
    (hdof : env.dof ≠ 0) :
    ((initialize_build env).2 = .structuralError env.blockName env.dof) ∧
    (InitEvent.solve ∉ (initialize_build env).1) ∧
    (structuralErrorMessage env.blockName env.dof =
      env.blockName ++ " degrees of freedom were not 0 at the beginning " ++
        "of initialization. DoF = " ++ toString env.dof) ∧
    (∀ b : String,
      (initialize_build env).2 ≠ InitOutcome.initializationError b) := by
  refine ⟨?_, ?_, rfl, ?_⟩
  · simp [initialize_build, hdof]
  · simp [initialize_build, hdof]
  · intro b
    simp [initialize_build, hdof]

/-- Witness for C6 at a concrete environment with three degrees of
freedom. -/
theorem nonzero_dof_structural_error_before_solve_witness :
    ((initialize_build ⟨"fs.translator", 0, 3, false, true⟩).2 =
      .structuralError "fs.translator" 3) ∧
    (InitEvent.solve ∉ (initialize_build ⟨"fs.translator", 0, 3, false, true⟩).1) ∧
    (structuralErrorMessage "fs.translator" 3 =
      "fs.translator" ++ " degrees of freedom were not 0 at the beginning " ++
        "of initialization. DoF = " ++ toString (3 : ℤ)) ∧
    (∀ b : String,
      (initialize_build ⟨"fs.translator", 0, 3, false, true⟩).2 ≠
        InitOutcome.initializationError b) :=
  nonzero_dof_structural_error_before_solve
    ⟨"fs.translator", 0, 3, false, true⟩ (by decide)

/-- C10: when the degrees-of-freedom check fails or the solver call itself
raises, `initialize_build` terminates without ever calling `release_state`
(the inlet hold stays in place) and does not succeed; conversely,
`release_state` appears in the trace only on the path where the check passed
and the solve returned. -/
theorem hold_released_only_on_post_solve_path (env : InitEnv) :
    (env.dof ≠ 0 ∨ env.solveRaises = true →
      (∀ f : ℕ, InitEvent.release_state f ∉ (initialize_build env).1) ∧
      (initialize_build env).2 ≠ InitOutcome.ok) ∧
    ((∃ f : ℕ, InitEvent.release_state f ∈ (initialize_build env).1) →
      env.dof = 0 ∧ env.solveRaises = false) := by
  constructor
  · rintro (hdof | hraise)
    · simp [initialize_build, hdof]
    · rcases eq_or_ne env.dof 0 with h0 | h0
      · simp [initialize_build, h0, hraise]
      · simp [initialize_build, h0]
  · rintro ⟨f, hf⟩
    by_contra hcon
    rw [not_and_or] at hcon
    rcases hcon with h | h
    · simp [initialize_build, h] at hf
    · rcases eq_or_ne env.dof 0 with h0 | h0
      · have hr : env.solveRaises = true := by
          cases hb : env.solveRaises
          · exact absurd hb h
          · rfl
        simp [initialize_build, h0, hr] at hf
      · simp [initialize_build, h0] at hf

/-- Witness for C10 at concrete environments: one where the solver raises
(no release, no success), and one where the solve returns (the release in
the trace certifies the path conditions). -/
theorem hold_released_only_on_post_solve_path_witness :
    ((∀ f : ℕ, InitEvent.release_state f ∉
        (initialize_build ⟨"fs.translator", 4, 0, true, true⟩).1) ∧
      (initialize_build ⟨"fs.translator", 4, 0, true, true⟩).2 ≠ InitOutcome.ok) ∧
    ((0 : ℤ) = 0 ∧ false = false) :=
  ⟨(hold_released_only_on_post_solve_path ⟨"fs.translator", 4, 0, true, true⟩).1
      (Or.inr rfl),
   (hold_released_only_on_post_solve_path ⟨"fs.translator", 4, 0, false, true⟩).2
      ⟨4, by decide⟩⟩

/-! ## Custom vessel costing: custom_costing_example.py

`CustomCostingData` registers one custom currency unit in its class body and
exposes `cost_custom_vessel`, which adds a parameter, six variables and six
constraints to the costing block, in source order.  Unit conversions carried
out by the external unit system (`pyunits.convert`) are modelled by a record
of conversion factors; the registered scale of `USD_custom` relative to the
reference unit `USD_CE500` appears there explicitly so that its effect on
every cost figure can be traced. -/

/-- A currency-unit definition registered with the unit system:
`name = scale * base`. -/
structure CurrencyDef where
  name : String
  scale : ℚ
  base : String
deriving DecidableEq

/-- The scale in the source's registration string
`"USD_custom = 500/700 * USD_CE500"`. -/
def usd_custom_scale : ℚ := 500 / 700

/-- The registration performed once in the class body of `CustomCostingData`:
`pyunits.load_definitions_from_strings(["USD_custom = 500/700 * USD_CE500"])`. -/
def registered_currency_defs : List CurrencyDef :=
  [⟨"USD_custom", usd_custom_scale, "USD_CE500"⟩]

/-- Source: `material_factor_dict`, the material factors for each valid
choice of shell material. -/
def material_factor_dict : List (String × ℚ) :=
  [("carbonsteel", 1), ("stainlessteel", 1.5), ("aluminum", 2)]

/-- Python's `material_factor_dict[material]`: `some` factor for a key in the
dict, `none` (a `KeyError`) otherwise. -/
def material_factor (m : String) : Option ℚ :=
  (material_factor_dict.find? (fun p => p.1 == m)).map (fun p => p.2)

/-- Conversion factors supplied by the external unit system.
`usd_custom_scale` is USD_CE500 per USD_custom (the registered 500/700);
`ce500_to_target` converts USD_CE500 to the `CE_index_year` target currency
units; `gal_per_m3` and `sec_per_year` are the volume and time conversions
used by the variable operating cost. -/
structure CostEnv where
  usd_custom_scale : ℚ
  ce500_to_target : ℚ
  gal_per_m3 : ℚ
  sec_per_year : ℚ
deriving DecidableEq

/-- Right-hand side of a costing constraint.  `rpowlit b e` is the build-time
number `b` raised to the real power `e` (the source's
`(volume_per_unit / ref_volume) ** 0.6`). -/
inductive CostExpr
  | lit (q : ℚ) : CostExpr
  | cvar (name : String) : CostExpr
  | mul (a b : CostExpr) : CostExpr
  | rpowlit (base : ℚ) (e : ℚ) : CostExpr
deriving DecidableEq

/-- Real semantics of a costing expression under an assignment of the block's
variables. -/
noncomputable def CostExpr.eval (σ : String → ℝ) : CostExpr → ℝ
  | .lit q => (q : ℝ)
  | .cvar n => σ n
  | .mul a b => a.eval σ * b.eval σ
  | .rpowlit b e => ((b : ℚ) : ℝ) ^ ((e : ℚ) : ℝ)

@[simp] theorem CostExpr.evalc_lit (σ : String → ℝ) (q : ℚ) :
    CostExpr.eval σ (.lit q) = (q : ℝ) := rfl

@[simp] theorem CostExpr.evalc_cvar (σ : String → ℝ) (n : String) :
    CostExpr.eval σ (.cvar n) = σ n := rfl

@[simp] theorem CostExpr.evalc_mul (σ : String → ℝ) (a b : CostExpr) :
    CostExpr.eval σ (.mul a b) = a.eval σ * b.eval σ := rfl

@[simp] theorem CostExpr.evalc_rpowlit (σ : String → ℝ) (b e : ℚ) :
    CostExpr.eval σ (.rpowlit b e) = ((b : ℚ) : ℝ) ^ ((e : ℚ) : ℝ) := rfl

/-- The state of the costing block produced by `cost_custom_vessel`:
parameters, variables and constraints in the order they were added, and the
error (the `KeyError` key) if construction aborted. -/
structure CostBlock where
  params : List (String × ℚ)
  vars : List String
  constraints : List (String × String × CostExpr)
  error : Option String
deriving DecidableEq

/-- `cost_custom_vessel`, modelled step by step in source order: the
`number_of_units` parameter and the `capital_cost_per_unit` variable are
added first; the `capital_cost_per_unit_eq` constraint rule then looks the
material up in `material_factor_dict` — an unknown key raises `KeyError`
there, leaving the block with the components already added; otherwise the
remaining variables and constraints are added. -/
def cost_custom_vessel (env : CostEnv) (volume_per_unit : ℚ) (material : String)
    (water_injection_rate_per_unit : ℚ) (number_of_units : ℚ) : CostBlock :=
  match material_factor material with
  | none =>
      { params := [("number_of_units", number_of_units)]
        vars := ["capital_cost_per_unit"]
        constraints := []
        error := some material }
  | some factor =>
      { params := [("number_of_units", number_of_units)]
        vars := ["capital_cost_per_unit", "capital_cost",
                 "fixed_operating_cost_per_unit", "fixed_operating_cost",
                 "variable_operating_cost_per_unit", "variable_operating_cost"]
        constraints :=
          [("capital_cost_per_unit_eq", "capital_cost_per_unit",
             .mul (.lit (factor * 10000 * env.usd_custom_scale * env.ce500_to_target))
                  (.rpowlit (volume_per_unit / 1000) 0.6)),
           ("capital_cost_constraint", "capital_cost",
             .mul (.cvar "capital_cost_per_unit") (.lit number_of_units)),
           ("fixed_operating_cost_per_unit_eq", "fixed_operating_cost_per_unit",
             .mul (.lit 0.05) (.cvar "capital_cost")),
           ("fixed_operating_cost_constraint", "fixed_operating_cost",
             .mul (.cvar "fixed_operating_cost_per_unit") (.lit number_of_units)),
           ("variable_operating_cost_per_unit_eq", "variable_operating_cost_per_unit",
             .lit (0.00190 * env.usd_custom_scale * env.ce500_to_target *
                   water_injection_rate_per_unit * env.gal_per_m3 * env.sec_per_year)),
           ("variable_operating_cost_constraint", "variable_operating_cost",
             .mul (.cvar "variable_operating_cost_per_unit") (.lit number_of_units))]
        error := none }

/-- An assignment satisfies a costing block when every constraint's
left-hand variable equals its right-hand side's value. -/
def Satisfies (σ : String → ℝ) (b : CostBlock) : Prop :=
  ∀ c ∈ b.constraints, σ c.2.1 = CostExpr.eval σ c.2.2

/-- The constraint list built for a material present in the dict. -/
theorem cost_constraints_eq (env : CostEnv) (vol w n : ℚ) (m : String) (f : ℚ)
    (hf : material_factor m = some f) :
    (cost_custom_vessel env vol m w n).constraints =
      [("capital_cost_per_unit_eq", "capital_cost_per_unit",
         .mul (.lit (f * 10000 * env.usd_custom_scale * env.ce500_to_target))
              (.rpowlit (vol / 1000) 0.6)),
       ("capital_cost_constraint", "capital_cost",
         .mul (.cvar "capital_cost_per_unit") (.lit n)),
       ("fixed_operating_cost_per_unit_eq", "fixed_operating_cost_per_unit",
         .mul (.lit 0.05) (.cvar "capital_cost")),
       ("fixed_operating_cost_constraint", "fixed_operating_cost",
         .mul (.cvar "fixed_operating_cost_per_unit") (.lit n)),
       ("variable_operating_cost_per_unit_eq", "variable_operating_cost_per_unit",
         .lit (0.00190 * env.usd_custom_scale * env.ce500_to_target * w *
               env.gal_per_m3 * env.sec_per_year)),
       ("variable_operating_cost_constraint", "variable_operating_cost",
         .mul (.cvar "variable_operating_cost_per_unit") (.lit n))] := by
  unfold cost_custom_vessel
  rw [hf]

/-- The value each cost variable is forced to by the block's constraints. -/
theorem cost_block_values (env : CostEnv) (vol w n : ℚ) (m : String) (f : ℚ)
    (hf : material_factor m = some f) (σ : String → ℝ)
    (hσ : Satisfies σ (cost_custom_vessel env vol m w n)) :
    σ "capital_cost_per_unit" =
      ((f * 10000 * env.usd_custom_scale * env.ce500_to_target : ℚ) : ℝ) *
        ((vol / 1000 : ℚ) : ℝ) ^ (((0.6 : ℚ)) : ℝ) ∧
    σ "capital_cost" = σ "capital_cost_per_unit" * ((n : ℚ) : ℝ) ∧
    σ "fixed_operating_cost_per_unit" = ((0.05 : ℚ) : ℝ) * σ "capital_cost" ∧
    σ "fixed_operating_cost" = σ "fixed_operating_cost_per_unit" * ((n : ℚ) : ℝ) ∧
    σ "variable_operating_cost_per_unit" =
      ((0.00190 * env.usd_custom_scale * env.ce500_to_target * w *
        env.gal_per_m3 * env.sec_per_year : ℚ) : ℝ) ∧
    σ "variable_operating_cost" =
      σ "variable_operating_cost_per_unit" * ((n : ℚ) : ℝ) := by
  have hc := cost_constraints_eq env vol w n m f hf
  refine ⟨?_, ?_, ?_, ?_, ?_, ?_⟩
  · have h := hσ ("capital_cost_per_unit_eq", "capital_cost_per_unit",
      .mul (.lit (f * 10000 * env.usd_custom_scale * env.ce500_to_target))
           (.rpowlit (vol / 1000) 0.6)) (by rw [hc]; simp)
    simpa using h
  · have h := hσ ("capital_cost_constraint", "capital_cost",
      .mul (.cvar "capital_cost_per_unit") (.lit n)) (by rw [hc]; simp)
    simpa using h
  · have h := hσ ("fixed_operating_cost_per_unit_eq", "fixed_operating_cost_per_unit",
      .mul (.lit 0.05) (.cvar "capital_cost")) (by rw [hc]; simp)
    simpa using h
  · have h := hσ ("fixed_operating_cost_constraint", "fixed_operating_cost",
      .mul (.cvar "fixed_operating_cost_per_unit") (.lit n)) (by rw [hc]; simp)
    simpa using h
  · have h := hσ ("variable_operating_cost_per_unit_eq", "variable_operating_cost_per_unit",
      .lit (0.00190 * env.usd_custom_scale * env.ce500_to_target * w *
            env.gal_per_m3 * env.sec_per_year)) (by rw [hc]; simp)
    simpa using h
  · have h := hσ ("variable_operating_cost_constraint", "variable_operating_cost",
      .mul (.cvar "variable_operating_cost_per_unit") (.lit n)) (by rw [hc]; simp)
    simpa using h

/-- The canonical solution of the costing block's six constraints (used to
exhibit satisfying assignments at concrete inputs). -/
noncomputable def canonicalSigma (env : CostEnv) (vol w n f : ℚ) : String → ℝ :=
  fun s =>
    let a : ℝ := ((f * 10000 * env.usd_custom_scale * env.ce500_to_target : ℚ) : ℝ) *
        ((vol / 1000 : ℚ) : ℝ) ^ (((0.6 : ℚ)) : ℝ)
    let v : ℝ := ((0.00190 * env.usd_custom_scale * env.ce500_to_target * w *
        env.gal_per_m3 * env.sec_per_year : ℚ) : ℝ)
    if s = "capital_cost_per_unit" then a
    else if s = "capital_cost" then a * ((n : ℚ) : ℝ)
    else if s = "fixed_operating_cost_per_unit" then
      ((0.05 : ℚ) : ℝ) * (a * ((n : ℚ) : ℝ))
    else if s = "fixed_operating_cost" then
      (((0.05 : ℚ) : ℝ) * (a * ((n : ℚ) : ℝ))) * ((n : ℚ) : ℝ)
    else if s = "variable_operating_cost_per_unit" then v
    else if s = "variable_operating_cost" then v * ((n : ℚ) : ℝ)
    else 0

/-- The canonical solution satisfies the built block. -/
theorem canonicalSigma_satisfies (env : CostEnv) (vol w n : ℚ) (m : String) (f : ℚ)
    (hf : material_factor m = some f) :
    Satisfies (canonicalSigma env vol w n f) (cost_custom_vessel env vol m w n) := by
  intro c hc
  rw [cost_constraints_eq env vol w n m f hf] at hc
  simp only [List.mem_cons, List.not_mem_nil, or_false] at hc
  rcases hc with rfl | rfl | rfl | rfl | rfl | rfl <;>
    simp [canonicalSigma, CostExpr.eval]

/-- C2 counterexample: calling `cost_custom_vessel` with material "titanium"
does fail with the lookup error, but it does NOT build "no variables": the
`capital_cost_per_unit` variable (and the `number_of_units` parameter) were
already added to the block before the constraint rule performs the dict
lookup, so the variable list is nonempty. -/
theorem unsupported_material_still_builds_a_variable :
    (cost_custom_vessel ⟨500 / 700, 1, 1, 1⟩ 1000 "titanium" 1 1).error =
      some "titanium" ∧
    (cost_custom_vessel ⟨500 / 700, 1, 1, 1⟩ 1000 "titanium" 1 1).vars ≠ [] := by
  constructor
  · decide
  · decide

/-- C2 (amended): calling `cost_custom_vessel` with a material outside
{"carbonsteel", "stainlessteel", "aluminum"} fails at build time with a
lookup error naming the material, and builds none of the cost constraints
and none of the cost variables beyond `capital_cost_per_unit` (which, with
the `number_of_units` parameter, was already added before the failing
lookup). -/
theorem unsupported_material_lookup_error (env : CostEnv) (vol w n : ℚ)
    (m : String) (hm : material_factor m = none) :
    (cost_custom_vessel env vol m w n).error = some m ∧
    (cost_custom_vessel env vol m w n).constraints = [] ∧
    (cost_custom_vessel env vol m w n).vars = ["capital_cost_per_unit"] ∧
    (cost_custom_vessel env vol m w n).params = [("number_of_units", n)] := by
  unfold cost_custom_vessel
  rw [hm]
  exact ⟨rfl, rfl, rfl, rfl⟩

/-- Witness for the amended C2 at the material "zircalloy". -/
theorem unsupported_material_lookup_error_witness :
    material_factor "zircalloy" = none ∧
    ((cost_custom_vessel ⟨500 / 700, 1, 1, 1⟩ 1000 "zircalloy" 1 1).error =
        some "zircalloy" ∧
     (cost_custom_vessel ⟨500 / 700, 1, 1, 1⟩ 1000 "zircalloy" 1 1).constraints = [] ∧
     (cost_custom_vessel ⟨500 / 700, 1, 1, 1⟩ 1000 "zircalloy" 1 1).vars =
        ["capital_cost_per_unit"] ∧
     (cost_custom_vessel ⟨500 / 700, 1, 1, 1⟩ 1000 "zircalloy" 1 1).params =
        [("number_of_units", 1)]) :=
  ⟨by decide,
   unsupported_material_lookup_error ⟨500 / 700, 1, 1, 1⟩ 1000 1 1 "zircalloy"
     (by decide)⟩

/-- C4: for every valid input combination, the constraint
`fixed_operating_cost_per_unit_eq` equates `fixed_operating_cost_per_unit`
to 0.05 times the aggregated `capital_cost` — structurally its right-hand
side references the variable `capital_cost`, which is a different expression
from one referencing `capital_cost_per_unit`, and semantically every
satisfying assignment has `fixed_operating_cost_per_unit` =
0.05 * `capital_cost`. -/
theorem fixed_operating_cost_per_unit_tracks_aggregated_capital_cost
    (env : CostEnv) (vol w n : ℚ) (m : String) (f : ℚ)
    (hf : material_factor m = some f) :
    (("fixed_operating_cost_per_unit_eq", "fixed_operating_cost_per_unit",
        CostExpr.mul (.lit 0.05) (.cvar "capital_cost")) ∈
      (cost_custom_vessel env vol m w n).constraints) ∧
    (∀ σ : String → ℝ, Satisfies σ (cost_custom_vessel env vol m w n) →
      σ "fixed_operating_cost_per_unit" = 0.05 * σ "capital_cost") ∧
    (CostExpr.mul (.lit 0.05) (.cvar "capital_cost") ≠
      CostExpr.mul (.lit 0.05) (.cvar "capital_cost_per_unit")) := by
  refine ⟨?_, ?_, by simp⟩
  · rw [cost_constraints_eq env vol w n m f hf]
    simp
  · intro σ hσ
    have h := (cost_block_values env vol w n m f hf σ hσ).2.2.1
    rw [h]
    norm_num

/-- Witness for C4 with carbonsteel, two units, and the canonical
solution. -/
theorem fixed_operating_cost_per_unit_tracks_aggregated_capital_cost_witness :
    material_factor "carbonsteel" = some 1 ∧
    (("fixed_operating_cost_per_unit_eq", "fixed_operating_cost_per_unit",
        CostExpr.mul (.lit 0.05) (.cvar "capital_cost")) ∈
      (cost_custom_vessel ⟨500 / 700, 1, 1, 1⟩ 1000 "carbonsteel" 1 2).constraints) ∧
    (canonicalSigma ⟨500 / 700, 1, 1, 1⟩ 1000 1 2 1 "fixed_operating_cost_per_unit" =
      0.05 * canonicalSigma ⟨500 / 700, 1, 1, 1⟩ 1000 1 2 1 "capital_cost") ∧
    (CostExpr.mul (.lit 0.05) (.cvar "capital_cost") ≠
      CostExpr.mul (.lit 0.05) (.cvar "capital_cost_per_unit")) :=
  have h := fixed_operating_cost_per_unit_tracks_aggregated_capital_cost
    ⟨500 / 700, 1, 1, 1⟩ 1000 1 2 "carbonsteel" 1 (by decide)
  ⟨by decide, h.1,
   h.2.1 _ (canonicalSigma_satisfies ⟨500 / 700, 1, 1, 1⟩ 1000 1 2 "carbonsteel" 1
     (by decide)),
   h.2.2⟩

/-- C3: the custom currency unit "USD_custom" is registered exactly once,
defined as exactly 500/700 of the reference cost-index currency unit
(`USD_CE500`); and when the unit environment carries that registered scale,
every cost figure defined by `cost_custom_vessel`'s constraints carries the
factor 500/700 exactly (each equals 500/700 times a quantity independent of
the registered scale). -/
theorem usd_custom_registered_once_and_scales_every_cost :
    ((registered_currency_defs.filter (fun d => d.name == "USD_custom")).length = 1) ∧
    (registered_currency_defs = [⟨"USD_custom", 500 / 700, "USD_CE500"⟩]) ∧
    (∀ (env : CostEnv), env.usd_custom_scale = usd_custom_scale →
      ∀ (vol w n : ℚ) (m : String) (f : ℚ),
      material_factor m = some f →
      ∀ σ : String → ℝ,
        Satisfies σ (cost_custom_vessel env vol m w n) →
        σ "capital_cost_per_unit" =
          (500 / 700 : ℝ) *
            ((f : ℝ) * 10000 * (env.ce500_to_target : ℝ) *
              ((vol / 1000 : ℚ) : ℝ) ^ (((0.6 : ℚ)) : ℝ)) ∧
        σ "capital_cost" =
          (500 / 700 : ℝ) *
            ((f : ℝ) * 10000 * (env.ce500_to_target : ℝ) *
              ((vol / 1000 : ℚ) : ℝ) ^ (((0.6 : ℚ)) : ℝ) * (n : ℝ)) ∧
        σ "fixed_operating_cost_per_unit" =
          (500 / 700 : ℝ) *
            (0.05 * ((f : ℝ) * 10000 * (env.ce500_to_target : ℝ) *
              ((vol / 1000 : ℚ) : ℝ) ^ (((0.6 : ℚ)) : ℝ) * (n : ℝ))) ∧
        σ "fixed_operating_cost" =
          (500 / 700 : ℝ) *
            (0.05 * ((f : ℝ) * 10000 * (env.ce500_to_target : ℝ) *
              ((vol / 1000 : ℚ) : ℝ) ^ (((0.6 : ℚ)) : ℝ) * (n : ℝ)) * (n : ℝ)) ∧
        σ "variable_operating_cost_per_unit" =
          (500 / 700 : ℝ) *
            (0.00190 * (env.ce500_to_target : ℝ) * (w : ℝ) *
              (env.gal_per_m3 : ℝ) * (env.sec_per_year : ℝ)) ∧
        σ "variable_operating_cost" =
          (500 / 700 : ℝ) *
            (0.00190 * (env.ce500_to_target : ℝ) * (w : ℝ) *
              (env.gal_per_m3 : ℝ) * (env.sec_per_year : ℝ) * (n : ℝ))) := by
  refine ⟨rfl, rfl, ?_⟩
  intro env hscale vol w n m f hm σ hσ
  obtain ⟨h1, h2, h3, h4, h5, h6⟩ := cost_block_values env vol w n m f hm σ hσ
  rw [hscale, usd_custom_scale] at h1 h5
  refine ⟨?_, ?_, ?_, ?_, ?_, ?_⟩
  · rw [h1]
    push_cast [Rat.cast_ofScientific]
    ring
  · rw [h2, h1]
    push_cast [Rat.cast_ofScientific]
    ring
  · rw [h3, h2, h1]
    push_cast [Rat.cast_ofScientific]
    ring
  · rw [h4, h3, h2, h1]
    push_cast [Rat.cast_ofScientific]
    ring
  · rw [h5]
    push_cast [Rat.cast_ofScientific]
    ring
  · rw [h6, h5]
    push_cast [Rat.cast_ofScientific]
    ring

/-- Witness for C3 with the registered scale, carbonsteel, two units, and
the canonical solution. -/
theorem usd_custom_registered_once_and_scales_every_cost_witness :
    ((registered_currency_defs.filter (fun d => d.name == "USD_custom")).length = 1) ∧
    (usd_custom_scale = usd_custom_scale) ∧
    (material_factor "carbonsteel" = some 1) ∧
    (canonicalSigma ⟨usd_custom_scale, 1, 1, 1⟩ 1000 1 2 1 "capital_cost_per_unit" =
      (500 / 700 : ℝ) *
        (((1 : ℚ) : ℝ) * 10000 * ((1 : ℚ) : ℝ) *
          (((1000 : ℚ) / 1000 : ℚ) : ℝ) ^ (((0.6 : ℚ)) : ℝ))) :=
  have h := usd_custom_registered_once_and_scales_every_cost
  have hv := h.2.2 ⟨usd_custom_scale, 1, 1, 1⟩ rfl 1000 1 2 "carbonsteel" 1
    (by decide)
    (canonicalSigma ⟨usd_custom_scale, 1, 1, 1⟩ 1000 1 2 1)
    (canonicalSigma_satisfies ⟨usd_custom_scale, 1, 1, 1⟩ 1000 1 2 "carbonsteel" 1
      (by decide))
  ⟨h.1, rfl, by decide, hv.1⟩

/-- C7: the constraint defining `capital_cost_per_unit` equates it to
material_factor × 10000 USD_custom × (volume_per_unit / 1000)^0.6 converted
to the target currency basis, with factors 1.0 / 1.5 / 2.0 for carbonsteel /
stainlessteel / aluminum; holding other inputs fixed it scales linearly in
the material factor, and it follows the 0.6-power law in the volume. -/
theorem capital_cost_material_factor_and_power_law :
    (material_factor "carbonsteel" = some 1 ∧
     material_factor "stainlessteel" = some 1.5 ∧
     material_factor "aluminum" = some 2) ∧
    (∀ (env : CostEnv) (vol w n : ℚ) (m : String) (f : ℚ),
      material_factor m = some f →
      ∀ σ : String → ℝ, Satisfies σ (cost_custom_vessel env vol m w n) →
        σ "capital_cost_per_unit" =
          (f : ℝ) * ((10000 * env.usd_custom_scale * env.ce500_to_target : ℚ) : ℝ) *
            ((vol / 1000 : ℚ) : ℝ) ^ (((0.6 : ℚ)) : ℝ)) ∧
    (∀ (env : CostEnv) (vol w n : ℚ) (σcs σss σal : String → ℝ),
      Satisfies σcs (cost_custom_vessel env vol "carbonsteel" w n) →
      Satisfies σss (cost_custom_vessel env vol "stainlessteel" w n) →
      Satisfies σal (cost_custom_vessel env vol "aluminum" w n) →
        σss "capital_cost_per_unit" = 1.5 * σcs "capital_cost_per_unit" ∧
        σal "capital_cost_per_unit" = 2 * σcs "capital_cost_per_unit") ∧
    (∀ (env : CostEnv) (vol s w n : ℚ) (m : String) (f : ℚ),
      material_factor m = some f → 0 ≤ vol → 0 ≤ s →
      ∀ σ σ' : String → ℝ,
        Satisfies σ (cost_custom_vessel env vol m w n) →
        Satisfies σ' (cost_custom_vessel env (s * vol) m w n) →
        σ' "capital_cost_per_unit" =
          ((s : ℚ) : ℝ) ^ (((0.6 : ℚ)) : ℝ) * σ "capital_cost_per_unit") := by
  refine ⟨⟨rfl, rfl, rfl⟩, ?_, ?_, ?_⟩
  · intro env vol w n m f hm σ hσ
    have h1 := (cost_block_values env vol w n m f hm σ hσ).1
    rw [h1]
    push_cast [Rat.cast_ofScientific]
    ring
  · intro env vol w n σcs σss σal hcs hss hal
    have h1 := (cost_block_values env vol w n "carbonsteel" 1 rfl σcs hcs).1
    have h2 := (cost_block_values env vol w n "stainlessteel" 1.5 rfl σss hss).1
    have h3 := (cost_block_values env vol w n "aluminum" 2 rfl σal hal).1
    constructor
    · rw [h2, h1]
      push_cast [Rat.cast_ofScientific]
      ring
    · rw [h3, h1]
      push_cast [Rat.cast_ofScientific]
      ring
  · intro env vol s w n m f hm hvol hs σ σ' hσ hσ'
    have h1 := (cost_block_values env vol w n m f hm σ hσ).1
    have h2 := (cost_block_values env (s * vol) w n m f hm σ' hσ').1
    rw [h2, h1]
    have hb : ((s * vol / 1000 : ℚ) : ℝ) = ((s : ℚ) : ℝ) * ((vol / 1000 : ℚ) : ℝ) := by
      push_cast
      ring
    have hsr : (0 : ℝ) ≤ ((s : ℚ) : ℝ) := by exact_mod_cast hs
    have hvr : (0 : ℝ) ≤ ((vol / 1000 : ℚ) : ℝ) := by
      have hq : (0 : ℚ) ≤ vol / 1000 := div_nonneg hvol (by norm_num)
      exact_mod_cast hq
    rw [hb, Real.mul_rpow hsr hvr]
    ring

/-- Witness for C7: the capital-cost form, the material-factor linearity and
the 0.6-power law (volume scaled by 4), at concrete inputs with the
canonical solutions. -/
theorem capital_cost_material_factor_and_power_law_witness :
    (canonicalSigma ⟨500 / 700, 1, 1, 1⟩ 1000 1 1 1 "capital_cost_per_unit" =
      ((1 : ℚ) : ℝ) * ((10000 * (500 / 700 : ℚ) * 1 : ℚ) : ℝ) *
        (((1000 : ℚ) / 1000 : ℚ) : ℝ) ^ (((0.6 : ℚ)) : ℝ)) ∧
    (canonicalSigma ⟨500 / 700, 1, 1, 1⟩ 1000 1 1 1.5 "capital_cost_per_unit" =
       1.5 * canonicalSigma ⟨500 / 700, 1, 1, 1⟩ 1000 1 1 1 "capital_cost_per_unit" ∧
     canonicalSigma ⟨500 / 700, 1, 1, 1⟩ 1000 1 1 2 "capital_cost_per_unit" =
       2 * canonicalSigma ⟨500 / 700, 1, 1, 1⟩ 1000 1 1 1 "capital_cost_per_unit") ∧
    (canonicalSigma ⟨500 / 700, 1, 1, 1⟩ (4 * 1000) 1 1 1 "capital_cost_per_unit" =
      ((4 : ℚ) : ℝ) ^ (((0.6 : ℚ)) : ℝ) *
        canonicalSigma ⟨500 / 700, 1, 1, 1⟩ 1000 1 1 1 "capital_cost_per_unit") :=
  have h := capital_cost_material_factor_and_power_law
  ⟨h.2.1 ⟨500 / 700, 1, 1, 1⟩ 1000 1 1 "carbonsteel" 1 rfl _
     (canonicalSigma_satisfies ⟨500 / 700, 1, 1, 1⟩ 1000 1 1 "carbonsteel" 1 rfl),
   h.2.2.1 ⟨500 / 700, 1, 1, 1⟩ 1000 1 1 _ _ _
     (canonicalSigma_satisfies ⟨500 / 700, 1, 1, 1⟩ 1000 1 1 "carbonsteel" 1 rfl)
     (canonicalSigma_satisfies ⟨500 / 700, 1, 1, 1⟩ 1000 1 1 "stainlessteel" 1.5 rfl)
     (canonicalSigma_satisfies ⟨500 / 700, 1, 1, 1⟩ 1000 1 1 "aluminum" 2 rfl),
   h.2.2.2 ⟨500 / 700, 1, 1, 1⟩ 1000 4 1 1 "carbonsteel" 1 rfl (by norm_num)
     (by norm_num) _ _
     (canonicalSigma_satisfies ⟨500 / 700, 1, 1, 1⟩ 1000 1 1 "carbonsteel" 1 rfl)
     (canonicalSigma_satisfies ⟨500 / 700, 1, 1, 1⟩ (4 * 1000) 1 1 "carbonsteel" 1 rfl)⟩

end Prommis
